import Mathlib

/-!
Verification of the MARPD-MAX ledger core (src/db.py, src/payments.py,
src/games.py, src/shop.py) against its natural-language specification.

The Python code is shallowly embedded: the in-memory collections of
`Database` become a `Store` record of association lists (Python dicts are
insertion-ordered maps; we model `d[k] = v` as replace-in-place or append),
monetary amounts (Python ints/floats used as exact decimals) become `Rat`,
`datetime.now()` becomes an explicit `Clock` argument, and each operation
returns its successor store together with a structured result
(`Except Err payload`) mirroring the `success`/`message` dictionaries of
the source, with each distinct failure return site given its own `Err` tag.

Timestamps: the source turns `datetime.now()` into strings with
`isoformat()`, `strftime("%Y-%m-%d")`, `strftime("%Y%m%d_%H%M%S")` and
`strftime("%Y%m%d_%H%M%S_%f")`.  Each of those formats is an injective,
order-preserving image of the instant truncated to day, second and
microsecond resolution respectively, so a `Clock` carries the three
truncations as numbers: `day` stands for the `%Y-%m-%d` string, `sec` for
the second-resolution key, `micro` for the microsecond-resolution key and
for `isoformat()` (whose lexicographic order is chronological order, and
whose date prefix is the `day` component).

Display-only data (usernames, Bengali message texts, payment instructions,
inventories, boosts, per-game statistics, the log collection) never feeds
back into any money field and is omitted from the embedding; every field
the claims observe (balance, coins, total_earned, total_spent, the xp
fields mutated alongside them, payment and transaction records) is carried
faithfully.
-/

/-- Money and amounts: Python mixes ints and floats over exact decimal
values; we embed them as rationals. -/
abbrev Money := Rat

/-- Python `int(x)` truncates toward zero. -/
def pyInt (q : Rat) : Int :=
  if 0 ≤ q then ⌊q⌋ else -⌊-q⌋

/-- Python `a // b` for ints is floor division. -/
def pyFloorDiv (a b : Int) : Int := Int.fdiv a b

/-- Python `str.lower` on one character (ASCII range, which is all the
source applies it to). -/
def pyLowerChar (c : Char) : Char :=
  if 'A' ≤ c && c ≤ 'Z' then Char.ofNat (c.toNat + 32) else c

/-- Python `str.lower`. -/
def pyToLower (s : String) : String := String.mk (s.data.map pyLowerChar)

/-- Association-list read, mirroring Python `dict.get(key)`. -/
def dget {α β : Type} [DecidableEq α] : List (α × β) → α → Option β
  | [], _ => none
  | (k, v) :: rest, key => if k = key then some v else dget rest key

/-- Association-list write, mirroring Python `d[key] = v`: the value at an
existing key is replaced in place, a fresh key is appended at the end. -/
def dset {α β : Type} [DecidableEq α] : List (α × β) → α → β → List (α × β)
  | [], key, v => [(key, v)]
  | (k, w) :: rest, key, v =>
    if k = key then (key, v) :: rest else (k, w) :: dset rest key v

/-- Payment lifecycle states (src/payments.py statuses). -/
inductive PayStatus : Type
  | PENDING
  | COMPLETED
  | REJECTED
  deriving DecidableEq, Repr

/-- Payment direction (src/payments.py `type` field). -/
inductive PayType : Type
  | DEPOSIT
  | WITHDRAW
  deriving DecidableEq, Repr

/-- One tag per distinct failure return site of the embedded operations
(the source returns `success: False` with a Bengali message; the spec's
error taxonomy names the same cases). -/
inductive Err : Type
  | notFound
  | invalidTransition (current : PayStatus)
  | insufficientFunds
  | limitExceeded
  | belowMin
  | aboveMax
  | unsupportedMethod
  | invalidPhone
  | manualConfirmRequired
  | wrongType
  | levelTooLow
  | vipOnly
  | outOfStock
  | nameError
  deriving DecidableEq, Repr

/-- One instant of `datetime.now()`, truncated to the three resolutions
the source formats it at (see the header comment).  `micro` refines `sec`
refines `day`; the claims never need that coherence, so it is not imposed. -/
structure Clock : Type where
  day : Nat
  sec : Nat
  micro : Nat
  deriving DecidableEq, Repr

/-- User record, restricted to the fields the ledger operations read or
write together with the money fields (src/db.py `create_user` layout). -/
structure UserRec : Type where
  balance : Money
  coins : Money
  totalEarned : Money
  totalSpent : Money
  level : Int
  xp : Rat
  totalXp : Rat
  isVip : Bool
  lastActive : Clock
  deriving DecidableEq, Repr

/-- Payment record as assembled by `request_deposit`/`request_withdraw`
plus the fields `add_payment`, confirm and reject stamp onto it.
`pid` is the number in the id string `pay_<%Y%m%d_%H%M%S_%f>`. -/
structure Payment : Type where
  pid : Nat
  userId : Int
  ptype : PayType
  methodCode : String
  amount : Money
  netAmount : Money
  fee : Money
  status : PayStatus
  trxId : Option String
  accountNumber : Option String
  requestedAt : Clock
  createdAt : Clock
  confirmedBy : Option Int
  confirmedAt : Option Clock
  processedAt : Option Clock
  rejectedBy : Option Int
  rejectedAt : Option Clock
  rejectionReason : Option String
  firstDepositBonus : Option Money
  deriving DecidableEq, Repr

/-- Mirrored audit record appended by `add_payment` (src/db.py).
`tid` is the number in the id string `tx_<%Y%m%d_%H%M%S>` (second
resolution only). -/
structure Txn : Type where
  tid : Nat
  userId : Int
  ttype : PayType
  amount : Money
  status : PayStatus
  timestamp : Clock
  reference : Nat
  deriving DecidableEq, Repr

/-- Shop item fields read by `buy_item` (src/shop.py); `stock = -1` is the
`item.get("stock", -1)` default meaning unlimited. -/
structure Item : Type where
  id : String
  price : Money
  stock : Int
  minLevel : Option Int
  vipOnly : Bool
  deriving DecidableEq, Repr

/-- The in-memory collections of `Database` touched by the claims:
users keyed by user id, payments keyed by the microsecond number of the
`pay_…` id, transactions keyed by the second number of the `tx_…` id,
and the shop item list. -/
structure Store : Type where
  users : List (Int × UserRec)
  payments : List (Nat × Payment)
  transactions : List (Nat × Txn)
  shop : List Item
  deriving DecidableEq, Repr

/-! ### Configuration constants (src/config.py) -/

def WELCOME_BONUS : Money := 500
def MIN_DEPOSIT : Money := 10
def MIN_WITHDRAW : Money := 50
def MAX_WITHDRAW_DAILY : Money := 10000

/-- Per-method data read by the payment flows (src/payments.py
`payment_methods`); display fields omitted. -/
structure PayMethod : Type where
  feePercent : Money
  minAmount : Money
  maxAmount : Money
  supported : Bool
  deriving DecidableEq, Repr

def paymentMethods : List (String × PayMethod) :=
  [ ("nagod",  { feePercent := 0,       minAmount := 10, maxAmount := 50000, supported := true }),
    ("bikash", { feePercent := 3 / 2,   minAmount := 10, maxAmount := 50000, supported := true }),
    ("rocket", { feePercent := 1,       minAmount := 10, maxAmount := 50000, supported := true }),
    ("upay",   { feePercent := 1 / 2,   minAmount := 10, maxAmount := 50000, supported := true }) ]

/-! ### Utils (src/utils.py) -/

/-- Core of the Bangladeshi phone pattern `01[3-9]\d{8}` anchored on both
sides (11 characters in total). -/
def isPhoneCore : List Char → Bool
  | '0' :: '1' :: d :: rest =>
    ('3' ≤ d && d ≤ '9') && rest.length == 8 && rest.all Char.isDigit
  | _ => false

/-- `Utils.validate_phone`: regex `^(?:\+88|88)?(01[3-9]\d{8})$` with the
optional prefix group tried first, then skipped (regex backtracking). -/
def validatePhone (s : String) : Bool :=
  match s.data with
  | '+' :: '8' :: '8' :: rest => isPhoneCore rest || isPhoneCore s.data
  | '8' :: '8' :: rest => isPhoneCore rest || isPhoneCore s.data
  | cs => isPhoneCore cs

/-- Loop of `Utils.calculate_level`; the fuel bounds the number of
iterations (each one removes at least 100 xp, so `floor xp + 1` suffices;
the loop exits as soon as `xp < xp_needed`). -/
def calcLevelLoop : Nat → Int → Rat → Int → Int × Rat × Int
  | 0, lvl, xp, need => (lvl, xp, need)
  | fuel + 1, lvl, xp, need =>
    if (need : Rat) ≤ xp then
      calcLevelLoop fuel (lvl + 1) (xp - need) (pyInt ((need : Rat) * (3 / 2)))
    else (lvl, xp, need)

/-- `sum(100 * (1.5 ** i) for i in range(n))`. -/
def levelXpSum : Nat → Rat
  | 0 => 0
  | n + 1 => levelXpSum n + 100 * (3 / 2) ^ n

structure LevelInfo : Type where
  level : Int
  xpRem : Rat
  xpNeeded : Int
  totalXp : Rat
  deriving DecidableEq, Repr

/-- `Utils.calculate_level`. -/
def calculateLevel (xp : Rat) : LevelInfo :=
  let out := calcLevelLoop (⌊xp⌋.toNat + 1) 1 xp 100
  { level := out.1
    xpRem := out.2.1
    xpNeeded := out.2.2
    totalXp := out.2.1 + levelXpSum (out.1 - 1).toNat }

/-! ### Persistence layer (src/db.py `_load_data` / `_save_data`) -/

/-- State of one on-disk file for `_load_data`: missing, present but
unparseable, or present with parsed contents. -/
inductive FileState (α : Type) : Type
  | absent
  | corrupt
  | good (d : α)
  deriving DecidableEq, Repr

/-- The `try` body of `_load_data`: pickle is consulted first; the JSON
branch is an `elif`, reached only when the pickle file does not exist.
`.ok none` is the fall-through when neither file exists; `.error ()` is a
raised parse exception. -/
def loadDataTry {α : Type} (pickleFile jsonFile : FileState α) :
    Except Unit (Option α) :=
  match pickleFile with
  | .good d => .ok (some d)
  | .corrupt => .error ()
  | .absent =>
    match jsonFile with
    | .good d => .ok (some d)
    | .corrupt => .error ()
    | .absent => .ok none

/-- `_load_data`: any exception from the `try` body is caught, logged and
turned into the default; so is the fall-through. Never raises. -/
def loadData {α : Type} (pickleFile jsonFile : FileState α) (deflt : α) : α :=
  match loadDataTry pickleFile jsonFile with
  | .ok (some d) => d
  | .ok none => deflt
  | .error _ => deflt

/-! ### Ledger store operations (src/db.py) -/

/-- Field updates passed to `update_user` (a Python dict of new values;
only the keys the embedded callers actually pass are modeled). -/
structure UserUpdates : Type where
  balance : Option Money := none
  coins : Option Money := none
  totalEarned : Option Money := none
  totalSpent : Option Money := none
  xp : Option Rat := none
  totalXp : Option Rat := none
  deriving DecidableEq, Repr

def applyUpdates (u : UserRec) (upd : UserUpdates) (now : Clock) : UserRec :=
  { u with
    balance := upd.balance.getD u.balance
    coins := upd.coins.getD u.coins
    totalEarned := upd.totalEarned.getD u.totalEarned
    totalSpent := upd.totalSpent.getD u.totalSpent
    xp := upd.xp.getD u.xp
    totalXp := upd.totalXp.getD u.totalXp
    lastActive := now }

/-- `Database.update_user`.  `saveOk` is the outcome `_save_data` would
report; the source calls `_save_data` and discards its boolean, returning
`True` whenever the user exists, so the result does not depend on
`saveOk` and no rollback is performed. -/
def updateUser (st : Store) (uid : Int) (upd : UserUpdates) (now : Clock)
    (saveOk : Bool) : Store × Bool :=
  match dget st.users uid with
  | some u =>
    let _ := saveOk
    ({ st with users := dset st.users uid (applyUpdates u upd now) }, true)
  | none => (st, false)

/-- Fields of the draft dict handed to `add_payment` by
`request_deposit` / `request_withdraw`. -/
structure PaymentDraft : Type where
  userId : Int
  ptype : PayType
  methodCode : String
  amount : Money
  netAmount : Money
  fee : Money
  trxId : Option String
  accountNumber : Option String
  requestedAt : Clock
  deriving DecidableEq, Repr

/-- The stored payment record `add_payment` builds from the draft. -/
def payRecordOf (d : PaymentDraft) (ck : Clock) : Payment :=
  { pid := ck.micro, userId := d.userId, ptype := d.ptype,
    methodCode := d.methodCode, amount := d.amount,
    netAmount := d.netAmount, fee := d.fee, status := .PENDING,
    trxId := d.trxId, accountNumber := d.accountNumber,
    requestedAt := d.requestedAt, createdAt := ck,
    confirmedBy := none, confirmedAt := none, processedAt := none,
    rejectedBy := none, rejectedAt := none, rejectionReason := none,
    firstDepositBonus := none }

/-- The mirrored transaction record `add_payment` appends. -/
def txRecordOf (d : PaymentDraft) (ck : Clock) : Txn :=
  { tid := ck.sec, userId := d.userId, ttype := d.ptype, amount := d.amount,
    status := .PENDING, timestamp := ck, reference := ck.micro }

/-- `Database.add_payment`: assigns `pay_<%Y%m%d_%H%M%S_%f>` (the `micro`
component), stamps `created_at`, forces status `PENDING`, stores the
payment, then writes the mirrored transaction under `tx_<%Y%m%d_%H%M%S>`
(the `sec` component, second resolution only). -/
def addPayment (st : Store) (d : PaymentDraft) (ck : Clock) : Store × Nat :=
  ({ st with
      payments := dset st.payments ck.micro (payRecordOf d ck)
      transactions := dset st.transactions ck.sec (txRecordOf d ck) },
   ck.micro)

/-- Stable insert for a descending sort on `created_at` (Python
`list.sort(key=..., reverse=True)` is stable; on a total key, stable and
sorted-descending determines the result, so a stable insertion sort
computes the same list). -/
def insertByCreatedDesc (p : Payment) : List Payment → List Payment
  | [] => [p]
  | q :: rest =>
    if q.createdAt.micro < p.createdAt.micro then p :: q :: rest
    else q :: insertByCreatedDesc p rest

def sortByCreatedDesc (l : List Payment) : List Payment :=
  l.foldl (fun acc p => insertByCreatedDesc p acc) []

/-- `Database.get_user_payments`: filter by user, sort newest first by
`created_at`, truncate to `limit` (default 20 at the call sites). -/
def getUserPayments (st : Store) (uid : Int) (limit : Nat) : List Payment :=
  let mine := (st.payments.map (fun kv => kv.2)).filter
    (fun p => p.userId == uid)
  (sortByCreatedDesc mine).take limit

/-- Names bound at module level in src/db.py (its imports plus the class it
defines).  `Config` is referenced by `create_user` but never imported. -/
def dbModuleGlobals : List String :=
  ["json", "os", "shutil", "datetime", "timedelta", "Dict", "Any",
   "Optional", "List", "threading", "pickle", "Database"]

/-- `Database.create_user`: builds the fresh user dict — whose `balance`
field evaluates the free name `Config` — and stores it under the id
(overwriting any existing record; there is no already-exists check).
Since `Config` is not bound in the module, evaluation raises `NameError`
before any mutation. -/
def createUser (st : Store) (uid : Int) (ck : Clock) :
    Store × Except Err UserRec :=
  if dbModuleGlobals.contains "Config" then
    let u : UserRec :=
      { balance := WELCOME_BONUS, coins := WELCOME_BONUS,
        totalEarned := 0, totalSpent := 0, level := 1, xp := 0,
        totalXp := 0, isVip := false, lastActive := ck }
    ({ st with users := dset st.users uid u }, .ok u)
  else (st, .error .nameError)

/-! ### Payment workflow (src/payments.py) -/

/-- Success payload of `request_withdraw`. -/
structure WithdrawOk : Type where
  paymentId : Nat
  netAmount : Money
  fee : Money
  newBalance : Money
  deriving DecidableEq, Repr

/-- Success payload of `confirm_deposit`. -/
structure DepositOk : Type where
  amountAdded : Money
  bonus : Money
  newBalance : Money
  paymentId : Nat
  deriving DecidableEq, Repr

/-- Success payload of `confirm_withdraw`. -/
structure ConfirmWOk : Type where
  amountSent : Money
  deriving DecidableEq, Repr

/-- Success payload of `reject_payment`. -/
structure RejectOk : Type where
  refunded : Bool
  deriving DecidableEq, Repr

/-- `PaymentManager._get_today_withdrawals`: every payment of the user of
type `WITHDRAW` whose `requested_at` starts with today's date string —
with no status filter. -/
def getTodayWithdrawals (st : Store) (uid : Int) (today : Nat) :
    List Payment :=
  (st.payments.map (fun kv => kv.2)).filter
    (fun p => p.userId == uid && p.ptype == PayType.WITHDRAW &&
      p.requestedAt.day == today)

/-- Sum the `amount` fields, as `sum(w["amount"] for w in ...)`. -/
def amountSum (l : List Payment) : Money :=
  (l.map (fun p => p.amount)).sum

/-- `PaymentManager.request_withdraw`: guards in source order (user
lookup, minimum, per-request maximum, daily cap, balance, method, phone
number), then debits the balance, records `total_spent`, and appends the
`WITHDRAW` payment. -/
def requestWithdraw (st : Store) (uid : Int) (amount : Money)
    (method acct : String) (ck : Clock) : Store × Except Err WithdrawOk :=
  match dget st.users uid with
  | none => (st, .error .notFound)
  | some u =>
    if amount < MIN_WITHDRAW then (st, .error .belowMin)
    else if MAX_WITHDRAW_DAILY < amount then (st, .error .aboveMax)
    else
      if MAX_WITHDRAW_DAILY <
          amountSum (getTodayWithdrawals st uid ck.day) + amount then
        (st, .error .limitExceeded)
      else if u.balance < amount then (st, .error .insufficientFunds)
      else
        match dget paymentMethods (pyToLower method) with
        | none => (st, .error .unsupportedMethod)
        | some pm =>
          if !validatePhone acct then (st, .error .invalidPhone)
          else
            let fee := amount * (pm.feePercent / 100)
            let net := amount - fee
            let draft : PaymentDraft :=
              { userId := uid, ptype := .WITHDRAW,
                methodCode := pyToLower method, amount := amount,
                netAmount := net, fee := fee, trxId := none,
                accountNumber := some acct, requestedAt := ck }
            let newBalance := u.balance - amount
            let st1 := (updateUser st uid
              { balance := some newBalance,
                totalSpent := some (u.totalSpent + amount) } ck true).1
            let st2 := (addPayment st1 draft ck).1
            let pid := (addPayment st1 draft ck).2
            (st2, .ok { paymentId := pid, netAmount := net, fee := fee,
                        newBalance := newBalance })

/-- `PaymentManager.confirm_deposit`: no payment-type check; auto
confirmation (no admin id) is allowed only for amounts up to 500 on
`nagod`/`bikash`; computes the first-deposit flag from
`get_user_payments` (default limit 20) *after* the payment was stored, so
the payment being confirmed is itself counted; credits `net_amount` plus
the bonus and reworks the xp fields via `calculate_level`. -/
def confirmDeposit (st : Store) (pid : Nat) (newTrxId : String)
    (adminId : Option Int) (ck : Clock) : Store × Except Err DepositOk :=
  match dget st.payments pid with
  | none => (st, .error .notFound)
  | some p =>
    if p.status ≠ .PENDING then (st, .error (.invalidTransition p.status))
    else
      if adminId = none && !(p.amount ≤ 500 &&
          (p.methodCode == "nagod" || p.methodCode == "bikash")) then
        (st, .error .manualConfirmRequired)
      else
        let confirmer : Int := match adminId with
          | some a => a
          | none => 0
        let isFirst := (getUserPayments st p.userId 20).length == 0
        let bonus : Money := if isFirst then min (p.amount * (1 / 10)) 500 else 0
        let totalAdded := p.netAmount + bonus
        let p1 : Payment :=
          { p with
            status := .COMPLETED
            confirmedBy := some confirmer
            confirmedAt := some ck
            trxId := some newTrxId
            firstDepositBonus :=
              if isFirst then some bonus else p.firstDepositBonus }
        match dget st.users p.userId with
        | some u =>
          let newBalance := u.balance + totalAdded
          let depositXp : Rat := (pyInt (p.amount * (1 / 2)) : Int)
          let cl := calculateLevel u.xp
          let st1 := (updateUser st p.userId
            { balance := some newBalance,
              totalEarned := some (u.totalEarned + totalAdded),
              xp := some (cl.xpRem + depositXp),
              totalXp := some (cl.totalXp + depositXp) } ck true).1
          ({ st1 with payments := dset st1.payments pid p1 },
           .ok { amountAdded := totalAdded, bonus := bonus,
                 newBalance := newBalance, paymentId := pid })
        | none =>
          ({ st with payments := dset st.payments pid p1 },
           .ok { amountAdded := totalAdded, bonus := bonus,
                 newBalance := 0, paymentId := pid })

/-- `PaymentManager.confirm_withdraw`: guards (lookup, PENDING,
type `WITHDRAW`), then flips the status and stamps the confirmation
fields; the user's balances are not touched. -/
def confirmWithdraw (st : Store) (pid : Nat) (adminId : Int)
    (ck : Clock) : Store × Except Err ConfirmWOk :=
  match dget st.payments pid with
  | none => (st, .error .notFound)
  | some p =>
    if p.status ≠ .PENDING then (st, .error (.invalidTransition p.status))
    else if p.ptype ≠ .WITHDRAW then (st, .error .wrongType)
    else
      let p1 : Payment :=
        { p with
          status := .COMPLETED
          confirmedBy := some adminId
          confirmedAt := some ck
          processedAt := some ck }
      ({ st with payments := dset st.payments pid p1 },
       .ok { amountSent := p.netAmount })

/-- `PaymentManager.reject_payment`: guards (lookup, PENDING); for a
`WITHDRAW` the reserved `amount` is refunded to the balance; then the
status flips to `REJECTED` with the rejection fields stamped. -/
def rejectPayment (st : Store) (pid : Nat) (adminId : Int)
    (reason : String) (ck : Clock) : Store × Except Err RejectOk :=
  match dget st.payments pid with
  | none => (st, .error .notFound)
  | some p =>
    if p.status ≠ .PENDING then (st, .error (.invalidTransition p.status))
    else
      let st1 :=
        if p.ptype = .WITHDRAW then
          match dget st.users p.userId with
          | some u =>
            (updateUser st p.userId
              { balance := some (u.balance + p.amount) } ck true).1
          | none => st
        else st
      let p1 : Payment :=
        { p with
          status := .REJECTED
          rejectedBy := some adminId
          rejectedAt := some ck
          rejectionReason := some reason }
      ({ st1 with payments := dset st1.payments pid p1 },
       .ok { refunded := p.ptype == PayType.WITHDRAW })

/-! ### Games (src/games.py) -/

/-- Success payload of `play_dice`. -/
structure DiceOk : Type where
  coins : Money
  winAmount : Int
  netProfit : Int
  deriving DecidableEq, Repr

/-- Success payload of `start_quiz`. -/
structure QuizOk : Type where
  remainingCoins : Money
  deriving DecidableEq, Repr

/-- `GamesManager.play_dice`.  The two die values are taken as arguments
in place of the source's `random` draws (every reachable draw, including
the `auto_roll` override, is some pair of integers); guards in source
order: minimum bet 10, maximum bet 10000, then the combined
missing-user/insufficient-coins check (one return site in the source). -/
def playDice (st : Store) (uid : Int) (bet userRoll botRoll : Int)
    (ck : Clock) : Store × Except Err DiceOk :=
  if bet < 10 then (st, .error .belowMin)
  else if 10000 < bet then (st, .error .aboveMax)
  else
    match dget st.users uid with
    | none => (st, .error .insufficientFunds)
    | some u =>
      if u.coins < (bet : Money) then (st, .error .insufficientFunds)
      else
        if botRoll < userRoll then
          let winAmount := pyInt ((bet : Rat) * (2 * (1 - 1 / 20)))
          let netProfit := winAmount - bet
          let xpGain := pyFloorDiv bet 10 + 5
          let st1 := (updateUser st uid
            { coins := some (u.coins + (netProfit : Money))
              totalEarned := some (u.totalEarned + (netProfit : Money))
              totalSpent := some u.totalSpent
              xp := some (u.xp + (xpGain : Rat))
              totalXp := some (u.totalXp + (xpGain : Rat)) } ck true).1
          (st1, .ok { coins := u.coins + (netProfit : Money),
                      winAmount := winAmount, netProfit := netProfit })
        else if userRoll < botRoll then
          let xpGain := pyFloorDiv bet 20
          let st1 := (updateUser st uid
            { coins := some (u.coins - (bet : Money))
              totalEarned := some u.totalEarned
              totalSpent := some (u.totalSpent + (bet : Money))
              xp := some (u.xp + (xpGain : Rat))
              totalXp := some (u.totalXp + (xpGain : Rat)) } ck true).1
          (st1, .ok { coins := u.coins - (bet : Money), winAmount := 0,
                      netProfit := -bet })
        else
          let xpGain := pyFloorDiv bet 15
          let st1 := (updateUser st uid
            { coins := some u.coins
              totalEarned := some u.totalEarned
              totalSpent := some u.totalSpent
              xp := some (u.xp + (xpGain : Rat))
              totalXp := some (u.totalXp + (xpGain : Rat)) } ck true).1
          (st1, .ok { coins := u.coins, winAmount := 0, netProfit := 0 })

/-- `GamesManager.start_quiz` up to its only store mutation: the entry fee
of 10 coins is deducted after the user lookup and the fee check (question
selection and the `active_games` bookkeeping touch no store state). -/
def startQuiz (st : Store) (uid : Int) (ck : Clock) :
    Store × Except Err QuizOk :=
  match dget st.users uid with
  | none => (st, .error .notFound)
  | some u =>
    if u.coins < 10 then (st, .error .insufficientFunds)
    else
      let st1 := (updateUser st uid
        { coins := some (u.coins - 10) } ck true).1
      (st1, .ok { remainingCoins := u.coins - 10 })

/-! ### Shop (src/shop.py) -/

/-- Success payload of `buy_item`. -/
structure BuyOk : Type where
  coins : Money
  totalPrice : Money
  deriving DecidableEq, Repr

/-- `Database.get_item`: first item with the given id. -/
def getItem (st : Store) (itemId : String) : Option Item :=
  st.shop.find? (fun it => it.id == itemId)

/-- `ShopManager._update_shop_item_stock`: set the stock of the first
matching item (the source breaks after the first hit). -/
def setStockFirst : List Item → String → Int → List Item
  | [], _, _ => []
  | it :: rest, itemId, s =>
    if it.id = itemId then { it with stock := s } :: rest
    else it :: setStockFirst rest itemId s

/-- `ShopManager.buy_item`.  `deals` is the manager's
`daily_deals["deals"]` map from item id to discounted price; guards in
source order (item lookup, user lookup, coins, `min_level`, `vip_only`,
stock); on success the coins and `total_spent` are updated and the stock
decremented (inventory and cosmetic effects touch no money field and are
omitted). -/
def buyItem (st : Store) (uid : Int) (itemId : String) (quantity : Int)
    (deals : List (String × Money)) (ck : Clock) :
    Store × Except Err BuyOk :=
  match getItem st itemId with
  | none => (st, .error .notFound)
  | some item =>
    let finalPrice := match dget deals itemId with
      | some dp => dp
      | none => item.price
    let totalPrice := finalPrice * (quantity : Money)
    match dget st.users uid with
    | none => (st, .error .notFound)
    | some u =>
      if u.coins < totalPrice then (st, .error .insufficientFunds)
      else
        let levelOk := match item.minLevel with
          | some ml => decide (ml ≤ u.level)
          | none => true
        if !levelOk then (st, .error .levelTooLow)
        else if item.vipOnly && !u.isVip then (st, .error .vipOnly)
        else if 0 ≤ item.stock && item.stock < quantity then
          (st, .error .outOfStock)
        else
          let st1 := (updateUser st uid
            { coins := some (u.coins - totalPrice)
              totalSpent := some (u.totalSpent + totalPrice) } ck true).1
          let newShop := setStockFirst st1.shop itemId (item.stock - quantity)
          let st2 := if 0 ≤ item.stock then { st1 with shop := newShop }
            else st1
          (st2, .ok { coins := u.coins - totalPrice,
                      totalPrice := totalPrice })

/-! ### The public money-moving operations as one step (claim C1) -/

/-- One public money-moving operation of the claim: a withdrawal request,
a dice play (the cited wager), a quiz entry, or a shop purchase. -/
inductive MoneyOp : Type
  | withdrawReq (amount : Money) (method acct : String)
  | dice (bet userRoll botRoll : Int)
  | quizEntry
  | buy (itemId : String) (quantity : Int) (deals : List (String × Money))

/-- Run one public money-moving operation; the boolean is the `success`
field of the source's result dict. -/
def runMoneyOp (st : Store) (uid : Int) (ck : Clock) :
    MoneyOp → Store × Bool
  | .withdrawReq amount method acct =>
    let out := requestWithdraw st uid amount method acct ck
    (out.1, out.2.toBool)
  | .dice bet userRoll botRoll =>
    let out := playDice st uid bet userRoll botRoll ck
    (out.1, out.2.toBool)
  | .quizEntry =>
    let out := startQuiz st uid ck
    (out.1, out.2.toBool)
  | .buy itemId quantity deals =>
    let out := buyItem st uid itemId quantity deals ck
    (out.1, out.2.toBool)

/-- Non-negativity of the money counters of every user of the store. -/
def moneyNonneg (st : Store) : Prop :=
  ∀ uid u, dget st.users uid = some u → 0 ≤ u.balance ∧ 0 ≤ u.coins

/-! ### Association-list lemmas -/

theorem dget_dset {α β : Type} [DecidableEq α] (d : List (α × β))
    (key k : α) (v : β) :
    dget (dset d key v) k = if key = k then some v else dget d k := by
  induction d with
  | nil => by_cases h : key = k <;> simp [dset, dget, h]
  | cons hd tl ih =>
    obtain ⟨k0, v0⟩ := hd
    by_cases h0 : k0 = key
    · subst h0
      by_cases h1 : k0 = k <;> simp [dset, dget, h1]
    · by_cases h1 : k0 = k
      · subst h1
        have : ¬ key = k0 := fun h => h0 h.symm
        simp [dset, dget, h0, this]
      · simp [dset, dget, h0, h1, ih]

theorem dget_dset_forall {α β : Type} [DecidableEq α] (P : β → Prop)
    (d : List (α × β)) (key : α) (v : β)
    (hall : ∀ k w, dget d k = some w → P w) (hv : P v) :
    ∀ k w, dget (dset d key v) k = some w → P w := by
  intro k w h
  rw [dget_dset] at h
  by_cases hk : key = k
  · simp [hk] at h
    exact h ▸ hv
  · simp [hk] at h
    exact hall k w h

theorem dget_dset_self {α β : Type} [DecidableEq α] (d : List (α × β))
    (k : α) (v : β) : dget (dset d k v) k = some v := by
  rw [dget_dset, if_pos rfl]

/-! ### Concrete fixtures used by witnesses and counterexamples -/

/-- 2025-06-01 12:00:00.000100 (day, second and microsecond components as
abstract numeric keys; see the header comment). -/
def ckA : Clock := { day := 9100, sec := 743100, micro := 743100000100 }

/-- Same second as `ckA`, 100 microseconds later. -/
def ckB : Clock := { day := 9100, sec := 743100, micro := 743100000200 }

/-- Five seconds after `ckA`. -/
def ckC : Clock := { day := 9100, sec := 743105, micro := 743105000000 }

/-- An instant on the previous day. -/
def ckOld : Clock := { day := 9099, sec := 700000, micro := 700000000000 }

def userA : UserRec :=
  { balance := 300, coins := 500, totalEarned := 0, totalSpent := 0,
    level := 1, xp := 0, totalXp := 0, isVip := false, lastActive := ckOld }

def storeA : Store :=
  { users := [(7, userA)], payments := [], transactions := [], shop := [] }

theorem pyToLower_nagod : pyToLower "nagod" = "nagod" := by decide

theorem validatePhone_fixture : validatePhone "01712345678" = true := by decide


/-! ### Claim C7: create_user -/

/-- C7 (claim: for an existing id `create_user` fails with `AlreadyExists`
leaving the record unchanged, and for a fresh id returns a welcome-bonus
user without raising).  What the code does instead: `create_user`
evaluates the unbound module-level name `Config`, so every call raises
`NameError` before touching the store; there is also no already-exists
check in the source, so no `AlreadyExists` failure can ever be produced. -/
theorem create_user_always_raises_nameError (st : Store) (uid : Int)
    (ck : Clock) : createUser st uid ck = (st, .error .nameError) := by
  simp [createUser]
  decide

/-! ### Claim C9: _load_data fallback order -/

/-- C9 counterexample: when the binary snapshot exists but fails to parse
while the textual file parses fine, `_load_data` returns the default, not
the textual contents — the JSON branch is an `elif` guarded on the pickle
file's existence, and the `except` swallows the parse failure. -/
theorem load_fallback_counterexample :
    loadData FileState.corrupt (FileState.good 7) 0 = 0 ∧ (0 : Nat) ≠ 7 :=
  ⟨rfl, by decide⟩

/-- C9 amended: `load` returns the binary snapshot's contents when it
exists and parses; the textual file is consulted only when the binary
snapshot is *absent*; if the binary snapshot exists but fails to parse —
or the textual file is consulted and fails to parse, or neither file
exists — the default is returned; `load` never raises. -/
theorem load_fallback_characterization {α : Type} (jf : FileState α)
    (d deflt : α) :
    loadData (FileState.good d) jf deflt = d ∧
    loadData FileState.corrupt jf deflt = deflt ∧
    loadData FileState.absent (FileState.good d) deflt = d ∧
    loadData FileState.absent FileState.corrupt deflt = deflt ∧
    loadData FileState.absent FileState.absent deflt = deflt :=
  ⟨rfl, rfl, rfl, rfl, rfl⟩

/-! ### Claim C8: persistence failure handling -/

def updC8 : UserUpdates := { coins := some 42 }

/-- C8 counterexample: with the write-through reporting failure
(`saveOk = false`), `update_user` still returns `True` and the in-memory
coins keep the new value 42 (the record is not rolled back to 500). -/
theorem save_failure_counterexample :
    (updateUser storeA 7 updC8 ckA false).2 = true ∧
    (dget (updateUser storeA 7 updC8 ckA false).1.users 7).map
      UserRec.coins = some 42 ∧
    userA.coins = 500 ∧ (42 : Money) ≠ 500 := by
  refine ⟨rfl, ?_, rfl, by norm_num⟩
  simp [updateUser, storeA, userA, dget, dset, applyUpdates, updC8]

/-- C8 amended: `update_user` discards `_save_data`'s boolean — its result
is identical whether the write-through succeeds or fails; whenever the
user exists it applies the merge in memory and returns `True` (no
rollback, no failure report), and only a missing user id yields `False`
with no mutation. -/
theorem update_user_ignores_save_result (st : Store) (uid : Int)
    (upd : UserUpdates) (ck : Clock) :
    updateUser st uid upd ck false = updateUser st uid upd ck true ∧
    ((dget st.users uid).isSome → (updateUser st uid upd ck false).2 = true) ∧
    (dget st.users uid = none → updateUser st uid upd ck false = (st, false)) := by
  unfold updateUser
  cases h : dget st.users uid <;> simp [h]

/-- Closed instance of `update_user_ignores_save_result` with its
hypotheses discharged at `storeA`. -/
theorem update_user_ignores_save_result_witness :
    ((dget storeA.users 7).isSome = true ∧
      (updateUser storeA 7 updC8 ckA false).2 = true) ∧
    (dget storeA.users 99 = none ∧
      updateUser storeA 99 updC8 ckA false = (storeA, false)) :=
  ⟨⟨rfl, (update_user_ignores_save_result storeA 7 updC8 ckA).2.1 (by rfl)⟩,
   ⟨rfl, (update_user_ignores_save_result storeA 99 updC8 ckA).2.2 (by rfl)⟩⟩

/-! ### Claim C10: add_payment and the transaction log -/

def draftD1 : PaymentDraft :=
  { userId := 7, ptype := .DEPOSIT, methodCode := "nagod", amount := 100,
    netAmount := 100, fee := 0, trxId := none, accountNumber := none,
    requestedAt := ckA }

def draftD2 : PaymentDraft :=
  { userId := 7, ptype := .DEPOSIT, methodCode := "nagod", amount := 200,
    netAmount := 200, fee := 0, trxId := none, accountNumber := none,
    requestedAt := ckB }

/-- C10: two `add_payment` calls in the same clock second (`ckA` and `ckB`
share the second component).  The payment ids differ (microsecond
resolution) and both payment records survive, but the transaction ids
collide (`tx_<%Y%m%d_%H%M%S>`, second resolution), so the second call
*overwrites* the first transaction record: only one transaction remains
and it references the second payment.  This refutes the append-only
claim for the audit log. -/
theorem add_payment_same_second_overwrites :
    (addPayment storeA draftD1 ckA).2 ≠
      (addPayment (addPayment storeA draftD1 ckA).1 draftD2 ckB).2 ∧
    ((addPayment (addPayment storeA draftD1 ckA).1 draftD2 ckB).1).payments.length = 2 ∧
    ((addPayment (addPayment storeA draftD1 ckA).1 draftD2 ckB).1).transactions.length = 1 ∧
    (dget ((addPayment (addPayment storeA draftD1 ckA).1 draftD2 ckB).1).transactions
        ckA.sec).map Txn.reference = some ckB.micro ∧
    ckB.micro ≠ ckA.micro := by
  refine ⟨by decide, rfl, rfl, rfl, by decide⟩

/-! ### Inversion helpers -/

theorem updateUser_fst_of_some (st : Store) (uid : Int) (upd : UserUpdates)
    (ck : Clock) (s : Bool) (u : UserRec) (hu : dget st.users uid = some u) :
    (updateUser st uid upd ck s).1 =
      { st with users := dset st.users uid (applyUpdates u upd ck) } := by
  unfold updateUser
  rw [hu]

/-- What a successful `request_withdraw` did: the user existed with
sufficient balance, the method was known, and the resulting store is the
balance-debited store with the fresh `WITHDRAW` payment appended. -/
theorem requestWithdraw_ok_inv (st : Store) (uid : Int) (amount : Money)
    (method acct : String) (ck : Clock) (w : WithdrawOk)
    (h : (requestWithdraw st uid amount method acct ck).2 = .ok w) :
    ∃ u pm,
      dget st.users uid = some u ∧
      dget paymentMethods (pyToLower method) = some pm ∧
      ¬ u.balance < amount ∧
      requestWithdraw st uid amount method acct ck =
        ((addPayment
            { st with users := dset st.users uid (applyUpdates u
                { balance := some (u.balance - amount),
                  totalSpent := some (u.totalSpent + amount) } ck) }
            { userId := uid, ptype := .WITHDRAW,
              methodCode := pyToLower method, amount := amount,
              netAmount := amount - amount * (pm.feePercent / 100),
              fee := amount * (pm.feePercent / 100), trxId := none,
              accountNumber := some acct, requestedAt := ck } ck).1,
         .ok { paymentId := ck.micro,
               netAmount := amount - amount * (pm.feePercent / 100),
               fee := amount * (pm.feePercent / 100),
               newBalance := u.balance - amount }) := by
  have main : ∃ u pm,
      dget st.users uid = some u ∧
      dget paymentMethods (pyToLower method) = some pm ∧
      ¬ amount < MIN_WITHDRAW ∧ ¬ MAX_WITHDRAW_DAILY < amount ∧
      ¬ MAX_WITHDRAW_DAILY <
        amountSum (getTodayWithdrawals st uid ck.day) + amount ∧
      ¬ u.balance < amount ∧ ¬ (!validatePhone acct) = true := by
    unfold requestWithdraw at h
    cases hu : dget st.users uid with
    | none => rw [hu] at h; exact absurd h (by simp)
    | some u =>
      simp only [hu] at h
      by_cases h1 : amount < MIN_WITHDRAW
      · rw [if_pos h1] at h; exact absurd h (by simp)
      · rw [if_neg h1] at h
        by_cases h2 : MAX_WITHDRAW_DAILY < amount
        · rw [if_pos h2] at h; exact absurd h (by simp)
        · rw [if_neg h2] at h
          by_cases h3 : MAX_WITHDRAW_DAILY <
              amountSum (getTodayWithdrawals st uid ck.day) + amount
          · rw [if_pos h3] at h; exact absurd h (by simp)
          · rw [if_neg h3] at h
            by_cases h4 : u.balance < amount
            · rw [if_pos h4] at h; exact absurd h (by simp)
            · rw [if_neg h4] at h
              cases hpm : dget paymentMethods (pyToLower method) with
              | none => rw [hpm] at h; exact absurd h (by simp)
              | some pm =>
                simp only [hpm] at h
                by_cases h5 : (!validatePhone acct) = true
                · rw [if_pos h5] at h; exact absurd h (by simp)
                · exact ⟨u, pm, rfl, rfl, h1, h2, h3, h4, h5⟩
  obtain ⟨u, pm, hu, hpm, h1, h2, h3, h4, h5⟩ := main
  refine ⟨u, pm, hu, hpm, h4, ?_⟩
  unfold requestWithdraw
  simp only [hu, hpm, if_neg h1, if_neg h2, if_neg h3, if_neg h4, if_neg h5]
  rw [updateUser_fst_of_some st uid _ ck true u hu]
  rfl

theorem addPayment_users (st : Store) (d : PaymentDraft) (ck : Clock) :
    ((addPayment st d ck).1).users = st.users := rfl

theorem addPayment_payments (st : Store) (d : PaymentDraft) (ck : Clock) :
    ((addPayment st d ck).1).payments =
      dset st.payments ck.micro (payRecordOf d ck) := rfl

/-- Effect of `reject_payment` on the users collection for a pending
withdrawal of an existing user: the reserved amount is credited back. -/
theorem rejectPayment_users_withdraw (st : Store) (pid : Nat) (p : Payment)
    (u : UserRec) (aid : Int) (reason : String) (ck2 : Clock)
    (hp : dget st.payments pid = some p) (hst : p.status = .PENDING)
    (hty : p.ptype = .WITHDRAW) (hu : dget st.users p.userId = some u) :
    ((rejectPayment st pid aid reason ck2).1).users =
      dset st.users p.userId
        (applyUpdates u { balance := some (u.balance + p.amount) } ck2) := by
  unfold rejectPayment
  simp only [hp, hst, hty, hu, updateUser, if_pos]
  simp

/-! ### Claim C2: withdraw reservation round trip -/

/-- C2: a successful `request_withdraw(user, amount, …)` immediately
reduces the user's balance by exactly `amount`, and a subsequent
`reject_payment` of that same payment restores the balance to exactly its
pre-request value. -/
theorem withdraw_request_reject_roundtrip (st : Store) (uid : Int)
    (amount : Money) (method acct : String) (ck ck2 : Clock)
    (adminId : Int) (reason : String) (u : UserRec) (w : WithdrawOk)
    (hu : dget st.users uid = some u)
    (h : (requestWithdraw st uid amount method acct ck).2 = .ok w) :
    (∃ u1, dget ((requestWithdraw st uid amount method acct ck).1).users uid
        = some u1 ∧ u1.balance = u.balance - amount) ∧
    (∃ u2, dget ((rejectPayment
          (requestWithdraw st uid amount method acct ck).1
          w.paymentId adminId reason ck2).1).users uid = some u2 ∧
        u2.balance = u.balance) := by
  obtain ⟨u0, pm, hu0, hpm, hbal, hEq⟩ :=
    requestWithdraw_ok_inv st uid amount method acct ck w h
  rw [hu] at hu0
  obtain rfl : u = u0 := Option.some_inj.mp hu0
  have hw : w.paymentId = ck.micro := by
    have h2 := congrArg Prod.snd hEq
    rw [h] at h2
    injection h2 with h3
    rw [h3]
  rw [hEq, hw]
  constructor
  · refine ⟨applyUpdates u
      { balance := some (u.balance - amount),
        totalSpent := some (u.totalSpent + amount) } ck, ?_, ?_⟩
    · simp only [addPayment_users]
      show dget (dset st.users uid _) uid = _
      rw [dget_dset, if_pos rfl]
    · simp [applyUpdates]
  · have hpNew : dget ((addPayment
        { st with users := dset st.users uid (applyUpdates u
            { balance := some (u.balance - amount),
              totalSpent := some (u.totalSpent + amount) } ck) }
        { userId := uid, ptype := .WITHDRAW,
          methodCode := pyToLower method, amount := amount,
          netAmount := amount - amount * (pm.feePercent / 100),
          fee := amount * (pm.feePercent / 100), trxId := none,
          accountNumber := some acct, requestedAt := ck } ck).1).payments
        ck.micro = some (payRecordOf
          { userId := uid, ptype := .WITHDRAW,
            methodCode := pyToLower method, amount := amount,
            netAmount := amount - amount * (pm.feePercent / 100),
            fee := amount * (pm.feePercent / 100), trxId := none,
            accountNumber := some acct, requestedAt := ck } ck) := by
      rw [addPayment_payments, dget_dset, if_pos rfl]
    have husers : dget ((addPayment
        { st with users := dset st.users uid (applyUpdates u
            { balance := some (u.balance - amount),
              totalSpent := some (u.totalSpent + amount) } ck) }
        { userId := uid, ptype := .WITHDRAW,
          methodCode := pyToLower method, amount := amount,
          netAmount := amount - amount * (pm.feePercent / 100),
          fee := amount * (pm.feePercent / 100), trxId := none,
          accountNumber := some acct, requestedAt := ck } ck).1).users uid
        = some (applyUpdates u
            { balance := some (u.balance - amount),
              totalSpent := some (u.totalSpent + amount) } ck) := by
      simp only [addPayment_users]
      show dget (dset st.users uid _) uid = _
      rw [dget_dset, if_pos rfl]
    rw [rejectPayment_users_withdraw _ ck.micro _ _ adminId reason ck2
      hpNew rfl rfl husers]
    refine ⟨applyUpdates (applyUpdates u
        { balance := some (u.balance - amount),
          totalSpent := some (u.totalSpent + amount) } ck)
      { balance := some ((applyUpdates u
          { balance := some (u.balance - amount),
            totalSpent := some (u.totalSpent + amount) } ck).balance +
          (payRecordOf
            { userId := uid, ptype := .WITHDRAW,
              methodCode := pyToLower method, amount := amount,
              netAmount := amount - amount * (pm.feePercent / 100),
              fee := amount * (pm.feePercent / 100), trxId := none,
              accountNumber := some acct, requestedAt := ck } ck).amount) }
      ck2, ?_, ?_⟩
    · show dget (dset _ _ _) uid = _
      rw [dget_dset]
      simp [payRecordOf]
    · simp [applyUpdates, payRecordOf]

/-- Closed instance of `withdraw_request_reject_roundtrip` with its
hypotheses discharged at `storeA` (balance 300, withdraw 100, reject). -/
theorem withdraw_request_reject_roundtrip_witness :
    (∃ u1, dget ((requestWithdraw storeA 7 100 "nagod" "01712345678"
        ckA).1).users 7 = some u1 ∧ u1.balance = userA.balance - 100) ∧
    (∃ u2, dget ((rejectPayment
          (requestWithdraw storeA 7 100 "nagod" "01712345678" ckA).1
          ({ paymentId := 743100000100, netAmount := 100, fee := 0,
             newBalance := 200 } : WithdrawOk).paymentId 5 "dup" ckC).1).users
        7 = some u2 ∧ u2.balance = userA.balance) :=
  withdraw_request_reject_roundtrip storeA 7 100 "nagod" "01712345678" ckA
    ckC 5 "dup" userA
    { paymentId := 743100000100, netAmount := 100, fee := 0,
      newBalance := 200 }
    rfl
    (by norm_num [requestWithdraw, storeA, userA, dget, MIN_WITHDRAW,
      MAX_WITHDRAW_DAILY, getTodayWithdrawals, amountSum, paymentMethods,
      pyToLower_nagod, validatePhone_fixture, updateUser, addPayment, ckA,
      applyUpdates, dset])

/-! ### Claim C3: idempotent confirmation -/

/-- A payment that is no longer `PENDING` makes `confirm_deposit` fail
with the invalid-transition error and no mutation at all. -/
theorem confirmDeposit_nonpending (st : Store) (pid : Nat) (p : Payment)
    (t : String) (a : Option Int) (ck : Clock)
    (hp : dget st.payments pid = some p) (hs : p.status ≠ .PENDING) :
    confirmDeposit st pid t a ck =
      (st, .error (.invalidTransition p.status)) := by
  unfold confirmDeposit
  simp only [hp, if_pos hs]

/-- A payment that is no longer `PENDING` makes `confirm_withdraw` fail
with the invalid-transition error and no mutation at all. -/
theorem confirmWithdraw_nonpending (st : Store) (pid : Nat) (p : Payment)
    (a : Int) (ck : Clock)
    (hp : dget st.payments pid = some p) (hs : p.status ≠ .PENDING) :
    confirmWithdraw st pid a ck =
      (st, .error (.invalidTransition p.status)) := by
  unfold confirmWithdraw
  simp only [hp, if_pos hs]

/-- After a successful `confirm_deposit` the payment is `COMPLETED`. -/
theorem confirmDeposit_ok_status (st : Store) (pid : Nat) (t : String)
    (a : Option Int) (ck : Clock) (r : DepositOk)
    (h : (confirmDeposit st pid t a ck).2 = .ok r) :
    ∃ p1, dget ((confirmDeposit st pid t a ck).1).payments pid = some p1 ∧
      p1.status = .COMPLETED := by
  unfold confirmDeposit at h ⊢
  cases hp : dget st.payments pid with
  | none => rw [hp] at h; exact absurd h (by simp)
  | some p =>
    simp only [hp] at h ⊢
    by_cases hs : p.status ≠ .PENDING
    · rw [if_pos hs] at h; exact absurd h (by simp)
    · rw [if_neg hs] at h
      simp only [if_neg hs]
      by_cases ha : ((a = none) && !(p.amount ≤ 500 &&
          (p.methodCode == "nagod" || p.methodCode == "bikash"))) = true
      · rw [if_pos ha] at h; exact absurd h (by simp)
      · rw [if_neg ha] at h
        simp only [if_neg ha]
        cases hu : dget st.users p.userId with
        | some u =>
          simp only [hu]
          refine ⟨_, dget_dset_self _ _ _, ?_⟩
          rfl
        | none =>
          simp only [hu]
          refine ⟨_, dget_dset_self _ _ _, ?_⟩
          rfl

/-- After a successful `confirm_withdraw` the payment is `COMPLETED`. -/
theorem confirmWithdraw_ok_status (st : Store) (pid : Nat) (a : Int)
    (ck : Clock) (r : ConfirmWOk)
    (h : (confirmWithdraw st pid a ck).2 = .ok r) :
    ∃ p1, dget ((confirmWithdraw st pid a ck).1).payments pid = some p1 ∧
      p1.status = .COMPLETED := by
  unfold confirmWithdraw at h ⊢
  cases hp : dget st.payments pid with
  | none => rw [hp] at h; exact absurd h (by simp)
  | some p =>
    simp only [hp] at h ⊢
    by_cases hs : p.status ≠ .PENDING
    · rw [if_pos hs] at h; exact absurd h (by simp)
    · rw [if_neg hs] at h
      simp only [if_neg hs]
      by_cases ht : p.ptype ≠ .WITHDRAW
      · rw [if_pos ht] at h; exact absurd h (by simp)
      · rw [if_neg ht] at h
        simp only [if_neg ht]
        refine ⟨_, dget_dset_self _ _ _, ?_⟩
        rfl

/-- C3: once a payment has been confirmed (through either entry point),
every further confirmation attempt on the same id — through either entry
point — returns the invalid-transition failure (the status is `COMPLETED`,
no longer `PENDING`) and leaves the whole store exactly as it was: no
user balance and no payment field changes. -/
theorem confirm_twice_second_fails (st : Store) (pid : Nat)
    (t t2 : String) (a a2 : Option Int) (aw aw2 : Int) (ck ck2 : Clock) :
    (∀ r, (confirmDeposit st pid t a ck).2 = .ok r →
      confirmDeposit ((confirmDeposit st pid t a ck).1) pid t2 a2 ck2 =
        ((confirmDeposit st pid t a ck).1,
         .error (.invalidTransition .COMPLETED)) ∧
      confirmWithdraw ((confirmDeposit st pid t a ck).1) pid aw ck2 =
        ((confirmDeposit st pid t a ck).1,
         .error (.invalidTransition .COMPLETED))) ∧
    (∀ r2, (confirmWithdraw st pid aw ck).2 = .ok r2 →
      confirmDeposit ((confirmWithdraw st pid aw ck).1) pid t2 a2 ck2 =
        ((confirmWithdraw st pid aw ck).1,
         .error (.invalidTransition .COMPLETED)) ∧
      confirmWithdraw ((confirmWithdraw st pid aw ck).1) pid aw2 ck2 =
        ((confirmWithdraw st pid aw ck).1,
         .error (.invalidTransition .COMPLETED))) := by
  constructor
  · intro r h
    obtain ⟨p1, hp1, hs1⟩ := confirmDeposit_ok_status st pid t a ck r h
    have hne : p1.status ≠ PayStatus.PENDING := by rw [hs1]; simp
    constructor
    · have := confirmDeposit_nonpending _ pid p1 t2 a2 ck2 hp1 hne
      rw [hs1] at this
      exact this
    · have := confirmWithdraw_nonpending _ pid p1 aw ck2 hp1 hne
      rw [hs1] at this
      exact this
  · intro r2 h
    obtain ⟨p1, hp1, hs1⟩ := confirmWithdraw_ok_status st pid aw ck r2 h
    have hne : p1.status ≠ PayStatus.PENDING := by rw [hs1]; simp
    constructor
    · have := confirmDeposit_nonpending _ pid p1 t2 a2 ck2 hp1 hne
      rw [hs1] at this
      exact this
    · have := confirmWithdraw_nonpending _ pid p1 aw2 ck2 hp1 hne
      rw [hs1] at this
      exact this

/-- A pending deposit of 1000 for user 3, requested at `ckA`. -/
def payD : Payment :=
  { pid := 743100000100, userId := 3, ptype := .DEPOSIT,
    methodCode := "nagod", amount := 1000, netAmount := 1000, fee := 0,
    status := .PENDING, trxId := none, accountNumber := none,
    requestedAt := ckA, createdAt := ckA, confirmedBy := none,
    confirmedAt := none, processedAt := none, rejectedBy := none,
    rejectedAt := none, rejectionReason := none, firstDepositBonus := none }

/-- A pending withdrawal of 100 for user 3, requested at `ckB` (the
balance reservation already happened at request time). -/
def payW : Payment :=
  { pid := 743100000200, userId := 3, ptype := .WITHDRAW,
    methodCode := "nagod", amount := 100, netAmount := 100, fee := 0,
    status := .PENDING, trxId := none,
    accountNumber := some "01712345678", requestedAt := ckB,
    createdAt := ckB, confirmedBy := none, confirmedAt := none,
    processedAt := none, rejectedBy := none, rejectedAt := none,
    rejectionReason := none, firstDepositBonus := none }

def userC : UserRec :=
  { balance := 300, coins := 500, totalEarned := 0, totalSpent := 0,
    level := 1, xp := 0, totalXp := 0, isVip := false, lastActive := ckOld }

def storeC : Store :=
  { users := [(3, userC)], payments := [(743100000100, payD),
    (743100000200, payW)], transactions := [], shop := [] }

/-- Closed instance of `confirm_twice_second_fails`: both re-confirmation
paths are applied after one successful `confirm_deposit` and one
successful `confirm_withdraw` on `storeC`. -/
theorem confirm_twice_second_fails_witness :
    (confirmDeposit ((confirmDeposit storeC 743100000100 "t1" (some 5)
        ckC).1) 743100000100 "t2" (some 6) ckC =
      ((confirmDeposit storeC 743100000100 "t1" (some 5) ckC).1,
       .error (.invalidTransition .COMPLETED))) ∧
    (confirmWithdraw ((confirmWithdraw storeC 743100000200 5 ckC).1)
        743100000200 6 ckC =
      ((confirmWithdraw storeC 743100000200 5 ckC).1,
       .error (.invalidTransition .COMPLETED))) :=
  ⟨((confirm_twice_second_fails storeC 743100000100 "t1" "t2" (some 5)
      (some 6) 5 6 ckC ckC).1
      { amountAdded := 1000, bonus := 0, newBalance := 1300,
        paymentId := 743100000100 }
      (by
        norm_num [confirmDeposit, storeC, payD, payW, userC, dget, dset,
          getUserPayments, sortByCreatedDesc, insertByCreatedDesc,
          calculateLevel, calcLevelLoop, levelXpSum, pyInt, updateUser,
          applyUpdates, ckA, ckB, ckC, List.foldl, List.filter, List.map,
          List.take]
        simp)).1,
   ((confirm_twice_second_fails storeC 743100000200 "t1" "t2" (some 5)
      (some 6) 5 6 ckC ckC).2
      { amountSent := 100 }
      (by norm_num [confirmWithdraw, storeC, payD, payW, dget, dset,
        ckA, ckB, ckC])).2⟩

/-! ### Claim C4: confirming a withdrawal must not move the balance -/

/-- C4 (claim: every confirmation entry point leaves balance and coins
unchanged for a `PENDING` `WITHDRAW`).  `confirm_withdraw` does, but
`confirm_deposit` performs no payment-type check: fed the pending
withdrawal `payW` (amount 100 already reserved at request time), it
reports success, flips the payment to `COMPLETED` and **credits** the
user's balance with the net amount — 300 becomes 400, a double payout. -/
theorem confirm_deposit_credits_pending_withdraw :
    (confirmDeposit storeC 743100000200 "t9" (some 5) ckC).2 =
      .ok { amountAdded := 100, bonus := 0, newBalance := 400,
            paymentId := 743100000200 } ∧
    (dget ((confirmDeposit storeC 743100000200 "t9" (some 5) ckC).1).users
      3).map UserRec.balance = some 400 ∧
    (dget ((confirmDeposit storeC 743100000200 "t9" (some 5)
      ckC).1).payments 743100000200).map Payment.status =
        some PayStatus.COMPLETED ∧
    userC.balance = 300 ∧ (400 : Money) ≠ 300 ∧
    ((confirmWithdraw storeC 743100000200 5 ckC).1).users =
      storeC.users := by
  refine ⟨?_, ?_, ?_, rfl, by norm_num, rfl⟩ <;>
  · norm_num [confirmDeposit, storeC, payD, payW, userC, dget, dset,
      getUserPayments, sortByCreatedDesc, insertByCreatedDesc,
      calculateLevel, calcLevelLoop, levelXpSum, pyInt, updateUser,
      applyUpdates, ckA, ckB, ckC, List.foldl, List.filter, List.map,
      List.take]
    try simp

/-! ### Claim C6: first-deposit bonus -/

/-- User 3 whose only payment ever is the pending deposit `payD`. -/
def storeD : Store :=
  { users := [(3, userC)], payments := [(743100000100, payD)],
    transactions := [], shop := [] }

/-- C6 (claim: confirming a user's first deposit credits the net amount
plus a first-deposit bonus).  At confirm time the pending deposit itself
is already in the payments collection, so `get_user_payments` is never
empty and the `is_first_deposit` flag is always false: even for a user
with no other payments the code credits exactly the net amount (1000)
with bonus 0, although the bonus the claim describes would have been
`min(10% of 1000, 500) = 100`. -/
theorem first_deposit_bonus_never_applied :
    (getUserPayments storeD 3 20).length = 1 ∧
    (confirmDeposit storeD 743100000100 "t1" (some 5) ckC).2 =
      .ok { amountAdded := 1000, bonus := 0, newBalance := 1300,
            paymentId := 743100000100 } ∧
    (dget ((confirmDeposit storeD 743100000100 "t1" (some 5)
      ckC).1).users 3).map UserRec.balance = some 1300 ∧
    min ((1000 : Money) * (1 / 10)) 500 = 100 ∧ (0 : Money) ≠ 100 := by
  refine ⟨?_, ?_, ?_, by norm_num, by norm_num⟩ <;>
  · norm_num [confirmDeposit, storeD, payD, userC, dget, dset,
      getUserPayments, sortByCreatedDesc, insertByCreatedDesc,
      calculateLevel, calcLevelLoop, levelXpSum, pyInt, updateUser,
      applyUpdates, ckA, ckC, List.foldl, List.filter, List.map,
      List.take]
    try simp

/-! ### Claim C5: the daily withdrawal cap -/

/-- The daily total as the spec words it (for comparison with the code in
claim C5): only the user's own `COMPLETED` and `PENDING` withdrawals
requested today count. -/
def specTodayCapSum (st : Store) (uid : Int) (today : Nat) : Money :=
  amountSum ((getTodayWithdrawals st uid today).filter
    (fun p => p.status == PayStatus.COMPLETED ||
      p.status == PayStatus.PENDING))

/-- A withdrawal of 9500 requested today and already `REJECTED`
(its amount was refunded at rejection time). -/
def payRej : Payment :=
  { pid := 743100000100, userId := 9, ptype := .WITHDRAW,
    methodCode := "nagod", amount := 9500, netAmount := 9500, fee := 0,
    status := .REJECTED, trxId := none,
    accountNumber := some "01712345678", requestedAt := ckA,
    createdAt := ckA, confirmedBy := none, confirmedAt := none,
    processedAt := none, rejectedBy := some 5, rejectedAt := some ckB,
    rejectionReason := some "x", firstDepositBonus := none }

def userR : UserRec :=
  { balance := 20000, coins := 0, totalEarned := 0, totalSpent := 0,
    level := 1, xp := 0, totalXp := 0, isVip := false, lastActive := ckOld }

def storeR : Store :=
  { users := [(9, userR)], payments := [(743100000100, payRej)],
    transactions := [], shop := [] }

/-- C5 counterexample: user 9 has only one withdrawal today and it is
`REJECTED` (9500, refunded), so by the claim the cap sum is 0 and a new
600 request (0 + 600 ≤ 10000) must not hit the limit error — but
`_get_today_withdrawals` has no status filter, counts the rejected 9500,
and the request fails with the limit error (and no mutation). -/
theorem daily_cap_counts_rejected :
    (requestWithdraw storeR 9 600 "nagod" "01712345678" ckC).2 =
      .error .limitExceeded ∧
    (requestWithdraw storeR 9 600 "nagod" "01712345678" ckC).1 = storeR ∧
    specTodayCapSum storeR 9 ckC.day + 600 ≤ MAX_WITHDRAW_DAILY := by
  refine ⟨?_, ?_, ?_⟩ <;>
  · norm_num [requestWithdraw, storeR, payRej, userR, dget, MIN_WITHDRAW,
      MAX_WITHDRAW_DAILY, getTodayWithdrawals, amountSum, specTodayCapSum,
      ckA, ckC, List.filter, List.map]
    try simp

/-- C5 amended: for an existing user and an amount inside the static
min/max bounds, `request_withdraw` fails with the limit error exactly
when the amount plus the sum of **all** of the user's withdrawals
requested today — regardless of status, `REJECTED` ones included —
exceeds the daily maximum. -/
theorem daily_cap_all_statuses (st : Store) (uid : Int) (amount : Money)
    (method acct : String) (ck : Clock) (u : UserRec)
    (hu : dget st.users uid = some u)
    (hmin : ¬ amount < MIN_WITHDRAW)
    (hmax : ¬ MAX_WITHDRAW_DAILY < amount) :
    ((requestWithdraw st uid amount method acct ck).2 =
        .error .limitExceeded ↔
      MAX_WITHDRAW_DAILY <
        amountSum (getTodayWithdrawals st uid ck.day) + amount) := by
  unfold requestWithdraw
  simp only [hu, if_neg hmin, if_neg hmax]
  by_cases hl : MAX_WITHDRAW_DAILY <
      amountSum (getTodayWithdrawals st uid ck.day) + amount
  · simp [hl]
  · simp only [if_neg hl]
    constructor
    · intro h
      exfalso
      by_cases hb : u.balance < amount
      · rw [if_pos hb] at h; simp at h
      · rw [if_neg hb] at h
        cases hpm : dget paymentMethods (pyToLower method) with
        | none => simp only [hpm] at h; simp at h
        | some pm =>
          simp only [hpm] at h
          by_cases hp : (!validatePhone acct) = true
          · rw [if_pos hp] at h; simp at h
          · rw [if_neg hp] at h; simp at h
    · intro h; exact absurd h hl

/-- Closed instance of `daily_cap_all_statuses` with its hypotheses
discharged on the `storeR` fixture. -/
theorem daily_cap_all_statuses_witness :
    (¬ (600 : Money) < MIN_WITHDRAW) ∧
    (¬ MAX_WITHDRAW_DAILY < (600 : Money)) ∧
    ((requestWithdraw storeR 9 600 "nagod" "01712345678" ckC).2 =
        .error .limitExceeded ↔
      MAX_WITHDRAW_DAILY <
        amountSum (getTodayWithdrawals storeR 9 ckC.day) + 600) :=
  ⟨by norm_num [MIN_WITHDRAW], by norm_num [MAX_WITHDRAW_DAILY],
   daily_cap_all_statuses storeR 9 600 "nagod" "01712345678" ckC userR rfl
     (by norm_num [MIN_WITHDRAW]) (by norm_num [MAX_WITHDRAW_DAILY])⟩

/-! ### Claim C1: non-negativity across the public money-moving ops -/

theorem moneyNonneg_addPayment (st : Store) (d : PaymentDraft) (ck : Clock)
    (h : moneyNonneg st) : moneyNonneg ((addPayment st d ck).1) := by
  intro k w hw
  exact h k w hw

theorem moneyNonneg_set_shop (st : Store) (newShop : List Item)
    (h : moneyNonneg st) : moneyNonneg { st with shop := newShop } := by
  intro k w hw
  exact h k w hw

theorem moneyNonneg_updateUser (st : Store) (uid : Int) (upd : UserUpdates)
    (ck : Clock) (s : Bool) (hinv : moneyNonneg st) (u : UserRec)
    (hu : dget st.users uid = some u)
    (hb : 0 ≤ (applyUpdates u upd ck).balance)
    (hc : 0 ≤ (applyUpdates u upd ck).coins) :
    moneyNonneg ((updateUser st uid upd ck s).1) := by
  rw [updateUser_fst_of_some st uid upd ck s u hu]
  intro k w h
  exact dget_dset_forall (fun v => 0 ≤ v.balance ∧ 0 ≤ v.coins)
    st.users uid _ (fun k w h => hinv k w h) ⟨hb, hc⟩ k w h

/-- On a winning dice play the net profit `int(bet * 1.9) - bet` is
non-negative whenever the bet passed the minimum-bet guard. -/
theorem dice_win_profit_nonneg (bet : Int) (hb : ¬ bet < 10) :
    0 ≤ pyInt ((bet : Rat) * (2 * (1 - 1 / 20))) - bet := by
  have hb0 : (0 : Int) ≤ bet := by omega
  have hbq : (0 : Rat) ≤ (bet : Rat) := by exact_mod_cast hb0
  have hq : (0 : Rat) ≤ (bet : Rat) * (2 * (1 - 1 / 20)) := by nlinarith
  rw [pyInt, if_pos hq]
  have hle : (bet : Rat) ≤ (bet : Rat) * (2 * (1 - 1 / 20)) := by nlinarith
  have h2 : bet ≤ ⌊(bet : Rat) * (2 * (1 - 1 / 20))⌋ := by
    rw [Int.le_floor]
    exact_mod_cast hle
  omega

/-- C1: every public money-moving operation (withdrawal request, dice
wager, quiz entry, shop purchase) preserves `balance ≥ 0 ∧ coins ≥ 0`
for every user, and whenever it reports failure it leaves the store
completely unchanged. -/
theorem money_ops_preserve_nonneg (st : Store) (uid : Int) (ck : Clock)
    (op : MoneyOp) (hinv : moneyNonneg st) :
    moneyNonneg (runMoneyOp st uid ck op).1 ∧
    ((runMoneyOp st uid ck op).2 = false →
      (runMoneyOp st uid ck op).1 = st) := by
  cases op with
  | withdrawReq amount method acct =>
    simp only [runMoneyOp]
    unfold requestWithdraw
    cases hu : dget st.users uid with
    | none => exact ⟨hinv, fun _ => by trivial⟩
    | some u =>
      simp only []
      by_cases h1 : amount < MIN_WITHDRAW
      · simp only [if_pos h1]; exact ⟨hinv, fun _ => by trivial⟩
      · simp only [if_neg h1]
        by_cases h2 : MAX_WITHDRAW_DAILY < amount
        · simp only [if_pos h2]; exact ⟨hinv, fun _ => by trivial⟩
        · simp only [if_neg h2]
          by_cases h3 : MAX_WITHDRAW_DAILY <
              amountSum (getTodayWithdrawals st uid ck.day) + amount
          · simp only [if_pos h3]; exact ⟨hinv, fun _ => by trivial⟩
          · simp only [if_neg h3]
            by_cases h4 : u.balance < amount
            · simp only [if_pos h4]; exact ⟨hinv, fun _ => by trivial⟩
            · simp only [if_neg h4]
              cases hpm : dget paymentMethods (pyToLower method) with
              | none => exact ⟨hinv, fun _ => by trivial⟩
              | some pm =>
                simp only []
                by_cases h5 : (!validatePhone acct) = true
                · simp only [if_pos h5]; exact ⟨hinv, fun _ => by trivial⟩
                · simp only [if_neg h5]
                  refine ⟨?_, fun hfalse => absurd hfalse (by
                    simp [Except.toBool])⟩
                  refine moneyNonneg_addPayment _ _ _
                    (moneyNonneg_updateUser st uid _ ck true hinv u hu ?_ ?_)
                  · simp only [applyUpdates, Option.getD]
                    have := not_lt.mp h4
                    linarith
                  · simp only [applyUpdates, Option.getD]
                    exact (hinv uid u hu).2
  | dice bet userRoll botRoll =>
    simp only [runMoneyOp]
    unfold playDice
    by_cases h1 : bet < 10
    · simp only [if_pos h1]; exact ⟨hinv, fun _ => by trivial⟩
    · simp only [if_neg h1]
      by_cases h2 : 10000 < bet
      · simp only [if_pos h2]; exact ⟨hinv, fun _ => by trivial⟩
      · simp only [if_neg h2]
        cases hu : dget st.users uid with
        | none => exact ⟨hinv, fun _ => by trivial⟩
        | some u =>
          simp only []
          by_cases h3 : u.coins < (bet : Money)
          · simp only [if_pos h3]; exact ⟨hinv, fun _ => by trivial⟩
          · simp only [if_neg h3]
            by_cases hw : botRoll < userRoll
            · simp only [if_pos hw]
              refine ⟨?_, fun hfalse => absurd hfalse (by
                simp [Except.toBool])⟩
              refine moneyNonneg_updateUser st uid _ ck true hinv u hu ?_ ?_
              · simp only [applyUpdates, Option.getD]
                exact (hinv uid u hu).1
              · simp only [applyUpdates, Option.getD]
                have hp := dice_win_profit_nonneg bet h1
                have hpq : (0 : Rat) ≤
                    ((pyInt ((bet : Rat) * (2 * (1 - 1 / 20))) - bet : Int) :
                      Rat) := by exact_mod_cast hp
                have hc0 := (hinv uid u hu).2
                push_cast at hpq ⊢
                linarith
            · simp only [if_neg hw]
              by_cases hl : userRoll < botRoll
              · simp only [if_pos hl]
                refine ⟨?_, fun hfalse => absurd hfalse (by
                  simp [Except.toBool])⟩
                refine moneyNonneg_updateUser st uid _ ck true hinv u hu ?_ ?_
                · simp only [applyUpdates, Option.getD]
                  exact (hinv uid u hu).1
                · simp only [applyUpdates, Option.getD]
                  have := not_lt.mp h3
                  linarith
              · simp only [if_neg hl]
                refine ⟨?_, fun hfalse => absurd hfalse (by
                  simp [Except.toBool])⟩
                refine moneyNonneg_updateUser st uid _ ck true hinv u hu ?_ ?_
                · simp only [applyUpdates, Option.getD]
                  exact (hinv uid u hu).1
                · simp only [applyUpdates, Option.getD]
                  exact (hinv uid u hu).2
  | quizEntry =>
    simp only [runMoneyOp]
    unfold startQuiz
    cases hu : dget st.users uid with
    | none => exact ⟨hinv, fun _ => by trivial⟩
    | some u =>
      simp only []
      by_cases h1 : u.coins < 10
      · simp only [if_pos h1]; exact ⟨hinv, fun _ => by trivial⟩
      · simp only [if_neg h1]
        refine ⟨?_, fun hfalse => absurd hfalse (by simp [Except.toBool])⟩
        refine moneyNonneg_updateUser st uid _ ck true hinv u hu ?_ ?_
        · simp only [applyUpdates, Option.getD]
          exact (hinv uid u hu).1
        · simp only [applyUpdates, Option.getD]
          have := not_lt.mp h1
          linarith
  | buy itemId quantity deals =>
    simp only [runMoneyOp]
    unfold buyItem
    cases hi : getItem st itemId with
    | none => exact ⟨hinv, fun _ => by trivial⟩
    | some item =>
      simp only []
      cases hu : dget st.users uid with
      | none => exact ⟨hinv, fun _ => by trivial⟩
      | some u =>
        simp only []
        by_cases h1 : u.coins < (match dget deals itemId with
          | some dp => dp
          | none => item.price) * (quantity : Money)
        · simp only [if_pos h1]; exact ⟨hinv, fun _ => by trivial⟩
        · simp only [if_neg h1]
          by_cases h2 : (!(match item.minLevel with
            | some ml => decide (ml ≤ u.level)
            | none => true)) = true
          · simp only [if_pos h2]; exact ⟨hinv, fun _ => by trivial⟩
          · simp only [if_neg h2]
            by_cases h3 : (item.vipOnly && !u.isVip) = true
            · simp only [if_pos h3]; exact ⟨hinv, fun _ => by trivial⟩
            · simp only [if_neg h3]
              by_cases h4 : ((0 ≤ item.stock : Bool) &&
                (item.stock < quantity : Bool)) = true
              · simp only [if_pos h4]; exact ⟨hinv, fun _ => by trivial⟩
              · simp only [if_neg h4]
                have hmain : moneyNonneg ((updateUser st uid
                    { coins := some (u.coins - (match dget deals itemId with
                        | some dp => dp
                        | none => item.price) * (quantity : Money)),
                      totalSpent := some (u.totalSpent +
                        (match dget deals itemId with
                          | some dp => dp
                          | none => item.price) * (quantity : Money)) }
                    ck true).1) := by
                  refine moneyNonneg_updateUser st uid _ ck true hinv u hu ?_ ?_
                  · simp only [applyUpdates, Option.getD]
                    exact (hinv uid u hu).1
                  · simp only [applyUpdates, Option.getD]
                    have := not_lt.mp h1
                    linarith
                refine ⟨?_, fun hfalse => absurd hfalse (by
                  simp [Except.toBool])⟩
                by_cases h5 : 0 ≤ item.stock
                · simp only [if_pos h5]
                  exact moneyNonneg_set_shop _ _ hmain
                · simp only [if_neg h5]
                  exact hmain

/-- Closed instance of `money_ops_preserve_nonneg`: the invariant holds
on `storeA` and is preserved by a quiz entry. -/
theorem money_ops_preserve_nonneg_witness :
    moneyNonneg storeA ∧
    (moneyNonneg (runMoneyOp storeA 7 ckA MoneyOp.quizEntry).1 ∧
      ((runMoneyOp storeA 7 ckA MoneyOp.quizEntry).2 = false →
        (runMoneyOp storeA 7 ckA MoneyOp.quizEntry).1 = storeA)) := by
  have hA : moneyNonneg storeA := by
    intro k w h
    simp only [storeA, dget] at h
    split at h
    · injection h with h2
      rw [← h2]
      constructor <;> norm_num [userA]
    · exact absurd h (by simp)
  exact ⟨hA, money_ops_preserve_nonneg storeA 7 ckA MoneyOp.quizEntry hA⟩
